import Mathlib

/-!
# Verification of the resume/job matching algorithm

Shallow embedding of `backend/app/matching.py` (`JobResumeMatcher`) and proofs
about it.  Python floats are embedded as exact rationals (`ℚ`); the arithmetic
of the matcher (weighted sums, divisions by small integers, comparisons with
decimal literals) is exact in this range, so `ℚ` is a faithful model of every
value the claims mention.  Python strings are ASCII in all relevant inputs, so
`str.lower` is embedded as ASCII lowering.  `datetime.now().year`, the one
piece of external state the code reads, is made an explicit parameter
`nowYear`.
-/

namespace Matching

/-- ASCII lowercase of one character, embedding Python `str.lower` on the
ASCII range. -/
def charLower (c : Char) : Char :=
  if 'A' ≤ c ∧ c ≤ 'Z' then Char.ofNat (c.toNat + 32) else c

/-- Embedding of Python `str.lower()` (ASCII range). -/
def pyLower (s : String) : String :=
  ⟨s.data.map charLower⟩

/-- Python `str.strip()` whitespace set. -/
def isPySpace (c : Char) : Bool :=
  c == ' ' || c == '\t' || c == '\n' || c == '\r' || c == '\x0b' || c == '\x0c'

/-- Embedding of Python `str.strip()`. -/
def pyStrip (s : String) : String :=
  ⟨((s.data.dropWhile isPySpace).reverse.dropWhile isPySpace).reverse⟩

/-- `leadsWith hay pat` holds when `pat` is an initial segment of `hay`. -/
def leadsWith : List Char → List Char → Bool
  | _, [] => true
  | [], _ :: _ => false
  | a :: as, b :: bs => a == b && leadsWith as bs

/-- `hasSub hay pat`: embedding of Python `pat in hay` on strings
(substring occurrence; the empty pattern always occurs). -/
def hasSub (pat : List Char) : List Char → Bool
  | [] => leadsWith [] pat
  | c :: t => leadsWith (c :: t) pat || hasSub pat t

/-- Embedding of the Python expression `needle in hay` for strings. -/
def strIn (needle hay : String) : Bool :=
  hasSub needle.data hay.data

/-- The `variations` table of `_skill_matches`. -/
def variations : List (String × List String) :=
  [ ("javascript", ["js", "ecmascript"]),
    ("typescript", ["ts"]),
    ("python", ["py"]),
    ("react", ["reactjs", "react.js"]),
    ("node", ["nodejs", "node.js"]),
    ("aws", ["amazon web services"]),
    ("gcp", ["google cloud platform", "google cloud"]),
    ("azure", ["microsoft azure"]),
    ("machine learning", ["ml"]),
    ("artificial intelligence", ["ai"]),
    ("user interface", ["ui"]),
    ("user experience", ["ux"]) ]

/-- Embedding of `JobResumeMatcher._skill_matches`: exact match after
lower/strip, substring containment either way, or a common-variations hit. -/
def skillMatches (jobSkill resumeSkill : String) : Bool :=
  let j := pyStrip (pyLower jobSkill)
  let r := pyStrip (pyLower resumeSkill)
  if j == r then true
  else if strIn j r || strIn r j then true
  else variations.any fun p => (p.1 :: p.2).contains j && (p.1 :: p.2).contains r

/-- `any(self._skill_matches(skill.lower(), rs) for rs in resume_skills_lower)`:
does any (already lowered) resume skill match this job skill? -/
def matchesAny (resumeSkillsLower : List String) (skill : String) : Bool :=
  resumeSkillsLower.any fun rs => skillMatches (pyLower skill) rs

/-- The `for skill in required_skills` loop of `_calculate_skills_match`:
returns `(score, max_score, matched, missing)` contributed by the required
skills, each with weight `skill_weights['required'] = 2.0`. -/
def reqLoop (rsl : List String) : List String → ℚ × ℚ × List String × List String
  | [] => (0, 0, [], [])
  | skill :: rest =>
    let r := reqLoop rsl rest
    if matchesAny rsl skill then
      (2 + r.1, 2 + r.2.1, skill :: r.2.2.1, r.2.2.2)
    else
      (r.1, 2 + r.2.1, r.2.2.1, skill :: r.2.2.2)

/-- The `for skill in nice_to_have_skills` loop of `_calculate_skills_match`:
returns `(score, max_score, matched)` contributed by the nice-to-have skills,
each with weight `skill_weights['nice_to_have'] = 1.0` (no missing list). -/
def niceLoop (rsl : List String) : List String → ℚ × ℚ × List String
  | [] => (0, 0, [])
  | skill :: rest =>
    let r := niceLoop rsl rest
    if matchesAny rsl skill then
      (1 + r.1, 1 + r.2.1, skill :: r.2.2)
    else
      (r.1, 1 + r.2.1, r.2.2)

/-- Embedding of `JobResumeMatcher._calculate_skills_match`.  Returns
`(score, matched, missing)`. -/
def skillsMatch (resumeSkills requiredSkills niceToHave : List String) :
    ℚ × List String × List String :=
  if requiredSkills.isEmpty && niceToHave.isEmpty then (100, [], [])
  else
    let rsl := resumeSkills.map pyLower
    let req := reqLoop rsl requiredSkills
    let nice := niceLoop rsl niceToHave
    let score := req.1 + nice.1
    let maxScore := req.2.1 + nice.2.1
    let matched := req.2.2.1 ++ nice.2.2
    let missing := req.2.2.2
    if maxScore = 0 then (100, matched, missing)
    else ((score / maxScore) * 100, matched, missing)

/-! ## Work experience and dates -/

/-- One entry of a resume's `work_experience` list (a Python dict; absent keys
behave as these defaults via `dict.get`). -/
structure WorkExp where
  start_date : String := ""
  end_date : String := ""
  is_current : Bool := false
  title : String := ""
deriving DecidableEq

/-- `s.split('-')[0]`: the part of `s` before the first `'-'`. -/
def beforeDash (s : String) : String :=
  ⟨s.data.takeWhile fun c => c ≠ '-'⟩

/-- Value of a nonempty all-digit character list, else `none`. -/
def digitsVal (ds : List Char) : Option Nat :=
  if ds.isEmpty || !ds.all Char.isDigit then none
  else some (ds.foldl (fun a c => a * 10 + (c.toNat - 48)) 0)

/-- Embedding of Python `int(s)` on the inputs this code can meet: optional
surrounding whitespace, optional sign, then decimal digits; anything else
raises `ValueError`, embedded as `none`. -/
def pyInt (s : String) : Option Int :=
  let t := (pyStrip s).data
  match t with
  | '+' :: rest => (digitsVal rest).map Int.ofNat
  | '-' :: rest => (digitsVal rest).map fun n => -(n : Int)
  | rest => (digitsVal rest).map Int.ofNat

/-- `start_year = int(start.split('-')[0]) if start else None`, inside the
`try`: outer `none` is a raised `ValueError`, inner `none` is Python `None`. -/
def startYearParse (e : WorkExp) : Option (Option Int) :=
  if e.start_date.isEmpty then some none
  else match pyInt (beforeDash e.start_date) with
       | none => none
       | some v => some (some v)

/-- `end_year`: the current year when the entry is current or has no end date,
else `int(end.split('-')[0])` (`none` = raised `ValueError`).  The source's
`if end else start_year` alternative is unreachable because this branch
requires `end` truthy. -/
def endYearParse (nowYear : Int) (e : WorkExp) : Option Int :=
  if e.is_current || e.end_date.isEmpty then some nowYear
  else pyInt (beforeDash e.end_date)

/-- Months contributed by one entry of the loop in
`_calculate_total_years_experience`; a raised `ValueError` is caught by the
`except` and skips the entry (0 months), and falsy (`None` or `0`)
`start_year`/`end_year` skip the `total_months` update. -/
def entryMonths (nowYear : Int) (e : WorkExp) : Int :=
  match startYearParse e with
  | none => 0
  | some startY =>
    match endYearParse nowYear e with
    | none => 0
    | some endY =>
      match startY with
      | none => 0
      | some s => if s ≠ 0 ∧ endY ≠ 0 then max 0 ((endY - s) * 12) else 0

/-- Embedding of `_calculate_total_years_experience` (`total_months / 12`),
with `datetime.now().year` as the explicit parameter `nowYear`. -/
def totalYears (nowYear : Int) (workExperience : List WorkExp) : ℚ :=
  (((workExperience.map (entryMonths nowYear)).sum : ℤ) : ℚ) / 12

/-- The `level_expectations` table of `_calculate_experience_match`. -/
def levelExpectations (level : String) : Option (ℚ × ℚ) :=
  if level == "entry" then some (0, 2)
  else if level == "mid" then some (2, 5)
  else if level == "senior" then some (5, 10)
  else if level == "lead" then some (7, 15)
  else if level == "executive" then some (10, 50)
  else none

/-- Embedding of `JobResumeMatcher._calculate_experience_match`. -/
def experienceMatch (nowYear : Int) (workExperience : List WorkExp)
    (requiredLevel : String) : ℚ :=
  if requiredLevel.isEmpty then 100
  else
    let ty := totalYears nowYear workExperience
    match levelExpectations (pyLower requiredLevel) with
    | none => 100
    | some mm =>
      if ty ≥ mm.1 then
        if ty ≤ mm.2 + 2 then 100 else 90
      else
        min 100 ((if mm.1 > 0 then ty / mm.1 else 1) * 100)

/-! ## Location -/

/-- Embedding of `JobResumeMatcher._calculate_location_match`.  The body of
`if preferred_location and job_location:` holds early returns; when none
fires, control falls through to the `remote_preference == 'any'` check,
embedded here as the `fallThrough` value. -/
def locationMatch (preferredLocation remotePreference jobLocation : String)
    (isRemote isHybrid : Bool) : ℚ :=
  if isRemote && remotePreference == "remote" then 100
  else if isHybrid && remotePreference == "hybrid" then 100
  else if remotePreference == "remote" && !isRemote then 30
  else
    let fallThrough : ℚ := if remotePreference == "any" then 80 else 50
    if !preferredLocation.isEmpty && !jobLocation.isEmpty then
      let pref := pyLower preferredLocation
      let jobLoc := pyLower jobLocation
      if strIn pref jobLoc || strIn jobLoc pref then 100
      else
        let prefParts := pref.splitOn ","
        let jobParts := jobLoc.splitOn ","
        if prefParts.length > 1 && jobParts.length > 1 &&
            pyStrip (prefParts.getLastD "") == pyStrip (jobParts.getLastD "") then
          70
        else fallThrough
    else fallThrough

/-! ## Keywords -/

/-- `True` for characters counted as ASCII letters by `[A-Za-z]`. -/
def isAsciiAlpha (c : Char) : Bool :=
  ('a' ≤ c && c ≤ 'z') || ('A' ≤ c && c ≤ 'Z')

/-- Regex word characters (`\w`): letters, digits, underscore (ASCII). -/
def isWordChar (c : Char) : Bool :=
  isAsciiAlpha c || ('0' ≤ c && c ≤ '9') || c == '_'

/-- Embedding of `re.findall(r'\b[A-Za-z]{4,}\b', text)`: the maximal ASCII
letter runs of length at least 4 whose neighbours (if any) are not word
characters.  `cur` is the letter run read so far (reversed) and `startOk`
records whether the run began at a `\b` boundary. -/
def wordRuns : List Char → List Char → Bool → List String
  | [], cur, startOk =>
    if startOk && decide (cur.length ≥ 4) then [⟨cur.reverse⟩] else []
  | c :: rest, cur, startOk =>
    if isAsciiAlpha c then wordRuns rest (c :: cur) startOk
    else
      (if startOk && decide (cur.length ≥ 4) && !isWordChar c then [⟨cur.reverse⟩] else []) ++
        wordRuns rest [] (!isWordChar c)

/-- The `desc_keywords` set extracted from a lowered job description. -/
def descWords (description : String) : Finset String :=
  (wordRuns (pyLower description).data [] true).toFinset

/-- Embedding of `JobResumeMatcher._calculate_keyword_match`; Python `set`s
become `Finset String`. -/
def keywordMatch (resumeKeywords jobKeywords : List String)
    (jobDescription : String) : ℚ :=
  if jobKeywords.isEmpty && jobDescription.isEmpty then 100
  else
    let resumeKwSet := (resumeKeywords.map pyLower).toFinset
    let descKeywords := if jobDescription.isEmpty then (∅ : Finset String)
                        else descWords jobDescription
    let allJobKeywords := (jobKeywords.map pyLower).toFinset ∪ descKeywords
    if allJobKeywords.card = 0 then 100
    else (((resumeKwSet ∩ allJobKeywords).card : ℚ) / (allJobKeywords.card : ℚ)) * 100

/-! ## Title -/

/-- Python `str.split()`: split on whitespace runs, dropping empty parts. -/
def pySplitWs (s : String) : List String :=
  (s.split fun c => isPySpace c).filter fun t => !t.isEmpty

/-- The `for job in work_experience` loop of `_calculate_title_match`,
threading `best_match`; an exact title match returns 100 immediately. -/
def titleLoop (jobTitleLower : String) : List WorkExp → ℚ → ℚ
  | [], best => best
  | e :: rest, best =>
    let expTitle := pyLower e.title
    if expTitle.isEmpty then titleLoop jobTitleLower rest best
    else if jobTitleLower == expTitle then 100
    else
      let b1 := if strIn jobTitleLower expTitle || strIn expTitle jobTitleLower then
                  max best 80 else best
      let jobWords := (pySplitWs jobTitleLower).toFinset
      let expWords := (pySplitWs expTitle).toFinset
      let b2 := if 0 < jobWords.card ∧ 0 < expWords.card then
                  max b1 ((((jobWords ∩ expWords).card : ℚ) /
                           ((jobWords ∪ expWords).card : ℚ)) * 100)
                else b1
      titleLoop jobTitleLower rest b2

/-- Embedding of `JobResumeMatcher._calculate_title_match`. -/
def titleMatch (workExperience : List WorkExp) (jobTitle : String) : ℚ :=
  if jobTitle.isEmpty || workExperience.isEmpty then 50
  else titleLoop (pyLower jobTitle) workExperience 0

/-! ## Rounding and the top-level matcher -/

/-- Round a rational to the nearest integer, ties to even (the rounding of
Python's `round` in exact arithmetic). -/
def roundHalfEven (q : ℚ) : ℤ :=
  let n := ⌊q⌋
  let f := q - (n : ℚ)
  if f < 1/2 then n
  else if 1/2 < f then n + 1
  else if n % 2 = 0 then n else n + 1

/-- Embedding of Python `round(x, 1)`. -/
def roundTenths (q : ℚ) : ℚ :=
  ((roundHalfEven (q * 10) : ℤ) : ℚ) / 10

/-- The `MatchResult` dataclass. -/
structure MatchResult where
  score : ℚ
  matching_skills : List String
  missing_skills : List String
  experience_match : ℚ
  location_match : ℚ
  reasons : List String
deriving DecidableEq

/-- A resume dict as read by `calculate_match`: the value of each key after
`resume.get(key, default)`, with the source's defaults. -/
structure Resume where
  skills : List String := []
  work_experience : List WorkExp := []
  preferred_location : String := ""
  remote_preference : String := "any"
  keywords : List String := []
deriving DecidableEq

/-- A job dict as read by `calculate_match`, after `job.get(key, default)`. -/
structure Job where
  required_skills : List String := []
  nice_to_have_skills : List String := []
  experience_level : String := ""
  location : String := ""
  is_remote : Bool := false
  is_hybrid : Bool := false
  keywords : List String := []
  description : String := ""
  title : String := ""
deriving DecidableEq

/-- Embedding of `JobResumeMatcher.calculate_match`, with
`datetime.now().year` as the explicit parameter `nowYear`. -/
def calculateMatch (nowYear : Int) (resume : Resume) (job : Job) : MatchResult :=
  let sk := skillsMatch resume.skills job.required_skills job.nice_to_have_skills
  let skillsScore := sk.1
  let matched := sk.2.1
  let missing := sk.2.2
  let experienceScore := experienceMatch nowYear resume.work_experience job.experience_level
  let locationScore := locationMatch resume.preferred_location resume.remote_preference
    job.location job.is_remote job.is_hybrid
  let keywordScore := keywordMatch resume.keywords job.keywords job.description
  let titleScore := titleMatch resume.work_experience job.title
  let totalScore := skillsScore * 0.40 + experienceScore * 0.20 +
    locationScore * 0.15 + keywordScore * 0.15 + titleScore * 0.10
  let boost := (matched.length : ℚ) ≥ (job.required_skills.length : ℚ) * 0.8 ∧
    experienceScore ≥ 80
  let reasons :=
    (if !matched.isEmpty then
      ["Matches " ++ toString matched.length ++ " required/nice-to-have skills"] else []) ++
    (if experienceScore ≥ 80 then ["Experience level matches job requirements"] else []) ++
    (if locationScore ≥ 80 then ["Location preferences align"] else []) ++
    (if keywordScore ≥ 70 then ["Strong keyword alignment with job description"] else []) ++
    (if titleScore ≥ 70 then ["Previous roles similar to this position"] else []) ++
    (if boost then ["Highly qualified candidate"] else [])
  let finalTotal := if boost then min 100 (totalScore * 1.1) else totalScore
  { score := roundTenths finalTotal
    matching_skills := matched
    missing_skills := missing
    experience_match := roundTenths experienceScore
    location_match := roundTenths locationScore
    reasons := reasons }

/-! ## Lemmas about the skills loops -/

theorem reqLoop_eq (rsl : List String) (l : List String) :
    reqLoop rsl l =
      (2 * ((l.filter (matchesAny rsl)).length : ℚ), 2 * (l.length : ℚ),
        l.filter (matchesAny rsl), l.filter fun s => !matchesAny rsl s) := by
  induction l with
  | nil => simp [reqLoop]
  | cons skill rest ih =>
    by_cases h : matchesAny rsl skill
    · simp only [reqLoop, ih, h, if_true, List.filter_cons, Bool.not_true,
        List.length_cons, Bool.false_eq_true, if_false, Prod.mk.injEq]
      exact ⟨by push_cast; ring, by push_cast; ring, trivial⟩
    · simp only [reqLoop, ih, h, List.filter_cons, List.length_cons,
        Bool.false_eq_true, if_false, Prod.mk.injEq, Bool.not_false, if_true]
      exact ⟨trivial, by push_cast; ring, trivial⟩

theorem niceLoop_eq (rsl : List String) (l : List String) :
    niceLoop rsl l =
      (((l.filter (matchesAny rsl)).length : ℚ), (l.length : ℚ),
        l.filter (matchesAny rsl)) := by
  induction l with
  | nil => simp [niceLoop]
  | cons skill rest ih =>
    by_cases h : matchesAny rsl skill
    · simp only [niceLoop, ih, h, if_true, List.filter_cons, List.length_cons,
        Prod.mk.injEq]
      exact ⟨by push_cast; ring, by push_cast; ring, trivial⟩
    · simp only [niceLoop, ih, h, List.filter_cons, List.length_cons,
        Bool.false_eq_true, if_false, Prod.mk.injEq]
      exact ⟨trivial, by push_cast; ring, trivial⟩

theorem skillsMatch_matched (rs req nice : List String) :
    (skillsMatch rs req nice).2.1 =
      req.filter (matchesAny (rs.map pyLower)) ++
        nice.filter (matchesAny (rs.map pyLower)) := by
  unfold skillsMatch
  by_cases h : req.isEmpty && nice.isEmpty
  · rw [if_pos h]
    rcases Bool.and_eq_true_iff.mp h with ⟨h1, h2⟩
    rw [List.isEmpty_iff.mp h1, List.isEmpty_iff.mp h2]
    simp
  · rw [if_neg h]
    simp only [reqLoop_eq, niceLoop_eq]
    split <;> rfl

theorem skillsMatch_missing (rs req nice : List String) :
    (skillsMatch rs req nice).2.2 =
      req.filter fun s => !matchesAny (rs.map pyLower) s := by
  unfold skillsMatch
  by_cases h : req.isEmpty && nice.isEmpty
  · rw [if_pos h]
    rcases Bool.and_eq_true_iff.mp h with ⟨h1, _⟩
    rw [List.isEmpty_iff.mp h1]
    simp
  · rw [if_neg h]
    simp only [reqLoop_eq, niceLoop_eq]
    split <;> rfl

theorem skillsMatch_maxScore_pos (req nice : List String)
    (h : (req.isEmpty && nice.isEmpty) = false) :
    (0 : ℚ) < 2 * (req.length : ℚ) + (nice.length : ℚ) := by
  have h2 : req ≠ [] ∨ nice ≠ [] := by
    by_contra hc
    push_neg at hc
    simp [hc.1, hc.2] at h
  have hr : (0:ℚ) ≤ (req.length : ℚ) := by positivity
  have hn : (0:ℚ) ≤ (nice.length : ℚ) := by positivity
  rcases h2 with h2 | h2
  · have h3 : 1 ≤ req.length := List.length_pos.mpr h2
    have h4 : (1:ℚ) ≤ (req.length : ℚ) := by exact_mod_cast h3
    linarith
  · have h3 : 1 ≤ nice.length := List.length_pos.mpr h2
    have h4 : (1:ℚ) ≤ (nice.length : ℚ) := by exact_mod_cast h3
    linarith

theorem skillsMatch_score (rs req nice : List String)
    (h : (req.isEmpty && nice.isEmpty) = false) :
    (skillsMatch rs req nice).1 =
      (2 * ((req.filter (matchesAny (rs.map pyLower))).length : ℚ) +
        ((nice.filter (matchesAny (rs.map pyLower))).length : ℚ)) /
        (2 * (req.length : ℚ) + (nice.length : ℚ)) * 100 := by
  have hpos := skillsMatch_maxScore_pos req nice h
  unfold skillsMatch
  rw [h]
  simp only [Bool.false_eq_true, if_false, reqLoop_eq, niceLoop_eq]
  rw [if_neg (by exact ne_of_gt hpos)]

/-! ## Title-match analysis -/

/-- The effective per-role candidate score of `_calculate_title_match`
(amended claim): 0 for an empty title, 100 for an exact match, else the
larger of 80-if-containment and the word-set Jaccard overlap scaled to
0-100 (the code evaluates both, not an `elif` chain). -/
def roleCandidate (jobTitleLower : String) (e : WorkExp) : ℚ :=
  let expTitle := pyLower e.title
  if expTitle.isEmpty then 0
  else if jobTitleLower == expTitle then 100
  else
    let jobWords := (pySplitWs jobTitleLower).toFinset
    let expWords := (pySplitWs expTitle).toFinset
    max (if strIn jobTitleLower expTitle || strIn expTitle jobTitleLower then 80 else 0)
      (if 0 < jobWords.card ∧ 0 < expWords.card then
        (((jobWords ∩ expWords).card : ℚ) / ((jobWords ∪ expWords).card : ℚ)) * 100
      else 0)

/-- `_calculate_title_match` as the amended claim describes it: 50 when the
job title or the work experience is empty, else the maximum role candidate
with floor 0. -/
def titleMatchSpec (workExperience : List WorkExp) (jobTitle : String) : ℚ :=
  if jobTitle.isEmpty || workExperience.isEmpty then 50
  else ((workExperience.map (roleCandidate (pyLower jobTitle))).foldr max 0)

/-- Modelled from the spec: the per-role candidate score exactly as claim C8
words it — an `elif` chain where substring containment yields 80 and the
Jaccard overlap is used only otherwise. -/
def claimedCandidate (jobTitleLower : String) (e : WorkExp) : ℚ :=
  let expTitle := pyLower e.title
  if expTitle.isEmpty then 0
  else if jobTitleLower == expTitle then 100
  else if strIn jobTitleLower expTitle || strIn expTitle jobTitleLower then 80
  else
    let jobWords := (pySplitWs jobTitleLower).toFinset
    let expWords := (pySplitWs expTitle).toFinset
    if 0 < jobWords.card ∧ 0 < expWords.card then
      (((jobWords ∩ expWords).card : ℚ) / ((jobWords ∪ expWords).card : ℚ)) * 100
    else 0

/-- Modelled from the spec: `_calculate_title_match` as claim C8 words it. -/
def titleMatchClaimed (workExperience : List WorkExp) (jobTitle : String) : ℚ :=
  if jobTitle.isEmpty || workExperience.isEmpty then 50
  else ((workExperience.map (claimedCandidate (pyLower jobTitle))).foldr max 0)

theorem foldr_max_nonneg (l : List ℚ) : 0 ≤ l.foldr max 0 := by
  induction l with
  | nil => exact le_refl 0
  | cons a t ih => exact le_trans ih (le_max_right a _)

theorem foldr_max_le (l : List ℚ) (c : ℚ) (h0 : 0 ≤ c)
    (h : ∀ x ∈ l, x ≤ c) : l.foldr max 0 ≤ c := by
  induction l with
  | nil => exact h0
  | cons a t ih =>
    exact max_le (h a (List.mem_cons_self a t))
      (ih fun x hx => h x (List.mem_cons_of_mem a hx))

theorem jaccard_nonneg (jw ew : Finset String) :
    (0:ℚ) ≤ (((jw ∩ ew).card : ℚ) / ((jw ∪ ew).card : ℚ)) * 100 := by
  positivity

theorem jaccard_le_100 (jw ew : Finset String) (hw : 0 < jw.card) :
    (((jw ∩ ew).card : ℚ) / ((jw ∪ ew).card : ℚ)) * 100 ≤ 100 := by
  have hsub : jw ∩ ew ⊆ jw ∪ ew :=
    le_trans Finset.inter_subset_left Finset.subset_union_left
  have hcard : (jw ∩ ew).card ≤ (jw ∪ ew).card := Finset.card_le_card hsub
  have hupos : 0 < (jw ∪ ew).card :=
    lt_of_lt_of_le hw (Finset.card_le_card Finset.subset_union_left)
  have hq : ((jw ∩ ew).card : ℚ) / ((jw ∪ ew).card : ℚ) ≤ 1 := by
    rw [div_le_one (by exact_mod_cast hupos)]
    exact_mod_cast hcard
  nlinarith

theorem roleCandidate_nonneg (jt : String) (e : WorkExp) :
    0 ≤ roleCandidate jt e := by
  unfold roleCandidate
  dsimp only
  split
  · exact le_refl 0
  · split
    · norm_num
    · exact le_trans (le_of_eq rfl)
        (le_max_of_le_right (by split <;> [exact jaccard_nonneg _ _; exact le_refl 0]))

theorem roleCandidate_le_100 (jt : String) (e : WorkExp) :
    roleCandidate jt e ≤ 100 := by
  unfold roleCandidate
  dsimp only
  split
  · norm_num
  · split
    · exact le_refl 100
    · apply max_le
      · split <;> norm_num
      · split
        · next hw => exact jaccard_le_100 _ _ hw.1
        · norm_num

theorem matchesAny_append_one (rsl : List String) (x t : String) :
    matchesAny (rsl ++ [x]) t =
      (matchesAny rsl t || skillMatches (pyLower t) x) := by
  simp [matchesAny, List.any_append]

theorem filter_length_lt {α : Type} {p q : α → Bool} (l : List α)
    (hpq : ∀ x, p x = true → q x = true) (a : α) (ha : a ∈ l)
    (hpa : p a = false) (hqa : q a = true) :
    (l.filter p).length < (l.filter q).length := by
  induction l with
  | nil => cases ha
  | cons x t ih =>
    have hle : (t.filter p).length ≤ (t.filter q).length :=
      (List.monotone_filter_right t hpq).length_le
    rcases List.mem_cons.mp ha with rfl | hat
    · rw [List.filter_cons, List.filter_cons, hpa, hqa]
      simp only [Bool.false_eq_true, if_false, if_true, List.length_cons]
      omega
    · rw [List.filter_cons, List.filter_cons]
      have hlt := ih hat
      by_cases hx : p x
      · rw [hx, hpq x hx]
        simp only [if_true, List.length_cons]
        omega
      · rw [Bool.not_eq_true] at hx
        rw [hx]
        simp only [Bool.false_eq_true, if_false]
        cases hqx : q x
        · simp only [Bool.false_eq_true, if_false]
          exact hlt
        · simp only [if_true, List.length_cons]
          omega

/-! ## Claims about the skills sub-score -/

/-- C3: with both job skill lists empty the skills sub-score is 100 with
empty matched/missing lists; otherwise the sub-score is
`100 * score / max_score` where each required skill weighs 2.0 and each
nice-to-have skill 1.0 and matched skills contribute their weight; and on
resume skills `["Python", "AWS"]` against required
`["python", "aws", "docker"]` it yields matched `["python", "aws"]`,
missing `["docker"]`, and sub-score `(2+2)/(2*3)*100 = 200/3 ≈ 66.7`. -/
theorem skills_subscore_formula :
    (∀ rs : List String, skillsMatch rs [] [] = (100, [], [])) ∧
    (∀ rs req nice : List String, (req.isEmpty && nice.isEmpty) = false →
      (skillsMatch rs req nice).1 =
        100 * (2 * ((req.filter (matchesAny (rs.map pyLower))).length : ℚ) +
          ((nice.filter (matchesAny (rs.map pyLower))).length : ℚ)) /
          (2 * (req.length : ℚ) + (nice.length : ℚ))) ∧
    skillsMatch ["Python", "AWS"] ["python", "aws", "docker"] [] =
      (200/3, ["python", "aws"], ["docker"]) := by
  refine ⟨fun rs => by simp [skillsMatch], fun rs req nice h => ?_, ?_⟩
  · rw [skillsMatch_score rs req nice h]
    ring
  · with_unfolding_all decide

/-- Witness for `skills_subscore_formula`: its second part applied to a
concrete nonempty job skill list. -/
theorem skills_subscore_formula_witness :
    (skillsMatch ["go"] ["go"] ["rust"]).1 =
      100 * (2 * (((["go"] : List String).filter
          (matchesAny ((["go"] : List String).map pyLower))).length : ℚ) +
        (((["rust"] : List String).filter
          (matchesAny ((["go"] : List String).map pyLower))).length : ℚ)) /
        (2 * ((["go"] : List String).length : ℚ) +
          ((["rust"] : List String).length : ℚ)) :=
  skills_subscore_formula.2.1 ["go"] ["go"] ["rust"] (by decide)

/-- C4: every required skill is in exactly one of `matching_skills` and
`missing_skills`; a matched one (even if also matched via the nice-to-have
list) is in `matching_skills` and never in `missing_skills`. -/
theorem required_skills_partition (rs req nice : List String) (s : String)
    (hs : s ∈ req) :
    (s ∈ (skillsMatch rs req nice).2.1 ∧ s ∉ (skillsMatch rs req nice).2.2) ∨
      (s ∉ (skillsMatch rs req nice).2.1 ∧ s ∈ (skillsMatch rs req nice).2.2) := by
  rw [skillsMatch_matched, skillsMatch_missing]
  by_cases h : matchesAny (rs.map pyLower) s
  · left
    constructor
    · exact List.mem_append.mpr (Or.inl (List.mem_filter.mpr ⟨hs, h⟩))
    · intro hmem
      have h2 := (List.mem_filter.mp hmem).2
      simp [h] at h2
  · right
    constructor
    · intro hmem
      rcases List.mem_append.mp hmem with h1 | h1
      · exact h (List.mem_filter.mp h1).2
      · exact h (List.mem_filter.mp h1).2
    · exact List.mem_filter.mpr ⟨hs, by simp [h]⟩

/-- Witness for `required_skills_partition` at a concrete resume and job. -/
theorem required_skills_partition_witness :
    ("python" ∈ (skillsMatch ["python"] ["python", "docker"] []).2.1 ∧
      "python" ∉ (skillsMatch ["python"] ["python", "docker"] []).2.2) ∨
      ("python" ∉ (skillsMatch ["python"] ["python", "docker"] []).2.1 ∧
        "python" ∈ (skillsMatch ["python"] ["python", "docker"] []).2.2) :=
  required_skills_partition ["python"] ["python", "docker"] [] "python" (by decide)

/-- C5: extending the resume's skills with a skill that matches a missing
required skill moves it from `missing_skills` to `matching_skills` and
strictly increases the skills sub-score (or leaves it equal if it was
already 100 — in fact the increase is always strict). -/
theorem adding_matching_skill_monotone (rs req nice : List String) (s r' : String)
    (hmiss : s ∈ (skillsMatch rs req nice).2.2)
    (hmatch : skillMatches (pyLower s) (pyLower r') = true) :
    s ∈ (skillsMatch (rs ++ [r']) req nice).2.1 ∧
      s ∉ (skillsMatch (rs ++ [r']) req nice).2.2 ∧
      ((skillsMatch rs req nice).1 < (skillsMatch (rs ++ [r']) req nice).1 ∨
        ((skillsMatch rs req nice).1 = 100 ∧
          (skillsMatch rs req nice).1 = (skillsMatch (rs ++ [r']) req nice).1)) := by
  rw [skillsMatch_missing] at hmiss
  have hsreq : s ∈ req := (List.mem_filter.mp hmiss).1
  have hps : matchesAny (rs.map pyLower) s = false := by
    have h2 := (List.mem_filter.mp hmiss).2
    cases h3 : matchesAny (rs.map pyLower) s
    · rfl
    · rw [h3] at h2
      simp at h2
  have hmap : (rs ++ [r']).map pyLower = rs.map pyLower ++ [pyLower r'] := by
    simp
  have hmono : ∀ x, matchesAny (rs.map pyLower) x = true →
      matchesAny ((rs ++ [r']).map pyLower) x = true := by
    intro x hx
    rw [hmap, matchesAny_append_one, hx]
    rfl
  have hp's : matchesAny ((rs ++ [r']).map pyLower) s = true := by
    rw [hmap, matchesAny_append_one, hps, hmatch]
    rfl
  have hguard : (req.isEmpty && nice.isEmpty) = false := by
    cases hreq : req.isEmpty
    · rfl
    · rw [List.isEmpty_iff.mp hreq] at hsreq
      cases hsreq
  refine ⟨?_, ?_, Or.inl ?_⟩
  · rw [skillsMatch_matched]
    exact List.mem_append.mpr (Or.inl (List.mem_filter.mpr ⟨hsreq, hp's⟩))
  · rw [skillsMatch_missing]
    intro hmem
    have h2 := (List.mem_filter.mp hmem).2
    rw [hp's] at h2
    simp at h2
  · rw [skillsMatch_score rs req nice hguard,
      skillsMatch_score (rs ++ [r']) req nice hguard]
    have hpos := skillsMatch_maxScore_pos req nice hguard
    have ha : (req.filter (matchesAny (rs.map pyLower))).length <
        (req.filter (matchesAny ((rs ++ [r']).map pyLower))).length :=
      filter_length_lt req hmono s hsreq hps hp's
    have hb : (nice.filter (matchesAny (rs.map pyLower))).length ≤
        (nice.filter (matchesAny ((rs ++ [r']).map pyLower))).length :=
      (List.monotone_filter_right nice hmono).length_le
    have haq : ((req.filter (matchesAny (rs.map pyLower))).length : ℚ) + 1 ≤
        ((req.filter (matchesAny ((rs ++ [r']).map pyLower))).length : ℚ) := by
      exact_mod_cast ha
    have hbq : ((nice.filter (matchesAny (rs.map pyLower))).length : ℚ) ≤
        ((nice.filter (matchesAny ((rs ++ [r']).map pyLower))).length : ℚ) := by
      exact_mod_cast hb
    have hnum : 2 * ((req.filter (matchesAny (rs.map pyLower))).length : ℚ) +
        ((nice.filter (matchesAny (rs.map pyLower))).length : ℚ) <
        2 * ((req.filter (matchesAny ((rs ++ [r']).map pyLower))).length : ℚ) +
          ((nice.filter (matchesAny ((rs ++ [r']).map pyLower))).length : ℚ) := by
      linarith
    exact mul_lt_mul_of_pos_right ((div_lt_div_right hpos).mpr hnum) (by norm_num)

/-- Witness for `adding_matching_skill_monotone`: resume `[]` gains skill
`"py"`, matching the missing required skill `"python"`. -/
theorem adding_matching_skill_monotone_witness :
    "python" ∈ (skillsMatch ([] ++ ["py"]) ["python"] []).2.1 ∧
      "python" ∉ (skillsMatch ([] ++ ["py"]) ["python"] []).2.2 ∧
      ((skillsMatch [] ["python"] []).1 < (skillsMatch ([] ++ ["py"]) ["python"] []).1 ∨
        ((skillsMatch [] ["python"] []).1 = 100 ∧
          (skillsMatch [] ["python"] []).1 = (skillsMatch ([] ++ ["py"]) ["python"] []).1)) :=
  adding_matching_skill_monotone [] ["python"] [] "python" "py"
    (by with_unfolding_all decide) (by decide)

/-- C7 counterexample: with resume skills `["python"]`, required
`["python"]` and nice-to-have `["python"]`, `matching_skills` is
`["python", "python"]` — the skill appears twice, so the list is not
deduplicated by first occurrence. -/
theorem matching_skills_duplicate :
    (skillsMatch ["python"] ["python"] ["python"]).2.1 = ["python", "python"] ∧
      ¬ (skillsMatch ["python"] ["python"] ["python"]).2.1.Nodup := by
  with_unfolding_all decide

/-- C7 amended: `matching_skills` is the job's required skills that match,
in the job's order, followed by the nice-to-have skills that match, in
order, with duplicates retained (a skill occurring in both lists, or
repeatedly in one, appears once per matching occurrence). -/
theorem matching_skills_order (rs req nice : List String) :
    (skillsMatch rs req nice).2.1 =
      req.filter (matchesAny (rs.map pyLower)) ++
        nice.filter (matchesAny (rs.map pyLower)) :=
  skillsMatch_matched rs req nice

theorem titleLoop_eq (jt : String) (l : List WorkExp) :
    ∀ b : ℚ, 0 ≤ b → b ≤ 100 →
      titleLoop jt l b = max b ((l.map (roleCandidate jt)).foldr max 0) := by
  induction l with
  | nil =>
    intro b hb0 _
    simp only [titleLoop, List.map_nil, List.foldr_nil]
    exact (max_eq_left hb0).symm
  | cons e rest ih =>
    intro b hb0 hb1
    have hcand0 := roleCandidate_nonneg jt e
    have hcand1 := roleCandidate_le_100 jt e
    have hfold0 := foldr_max_nonneg (rest.map (roleCandidate jt))
    have hfle : (rest.map (roleCandidate jt)).foldr max 0 ≤ 100 :=
      foldr_max_le _ _ (by norm_num) (fun x hx => by
        rcases List.mem_map.mp hx with ⟨e1, _, h1⟩
        rw [← h1]
        exact roleCandidate_le_100 jt e1)
    rw [List.map_cons, List.foldr_cons]
    by_cases hEmpty : (pyLower e.title).isEmpty
    · have hlhs : titleLoop jt (e :: rest) b = titleLoop jt rest b := by
        simp only [titleLoop]
        rw [if_pos hEmpty]
      have hcand : roleCandidate jt e = 0 := by
        unfold roleCandidate
        dsimp only
        rw [if_pos hEmpty]
      rw [hlhs, hcand, max_eq_right hfold0, ih b hb0 hb1]
    · by_cases hExact : (jt == pyLower e.title) = true
      · have hlhs : titleLoop jt (e :: rest) b = 100 := by
          simp only [titleLoop]
          rw [if_neg hEmpty, if_pos hExact]
        have hcand : roleCandidate jt e = 100 := by
          unfold roleCandidate
          dsimp only
          rw [if_neg hEmpty, if_pos hExact]
        rw [hlhs, hcand, max_eq_left hfle, max_eq_right hb1]
      · have hcand : roleCandidate jt e =
            max (if (strIn jt (pyLower e.title) || strIn (pyLower e.title) jt) = true
                  then (80:ℚ) else 0)
              (if 0 < (pySplitWs jt).toFinset.card ∧
                  0 < (pySplitWs (pyLower e.title)).toFinset.card then
                ((((pySplitWs jt).toFinset ∩ (pySplitWs (pyLower e.title)).toFinset).card : ℚ) /
                  (((pySplitWs jt).toFinset ∪ (pySplitWs (pyLower e.title)).toFinset).card : ℚ)) * 100
              else 0) := by
          unfold roleCandidate
          dsimp only
          rw [if_neg hEmpty, if_neg hExact]
        have hlhs : titleLoop jt (e :: rest) b =
            titleLoop jt rest
              (if 0 < (pySplitWs jt).toFinset.card ∧
                  0 < (pySplitWs (pyLower e.title)).toFinset.card then
                max (if (strIn jt (pyLower e.title) || strIn (pyLower e.title) jt) = true
                      then max b 80 else b)
                  (((((pySplitWs jt).toFinset ∩ (pySplitWs (pyLower e.title)).toFinset).card : ℚ) /
                    (((pySplitWs jt).toFinset ∪ (pySplitWs (pyLower e.title)).toFinset).card : ℚ)) * 100)
              else (if (strIn jt (pyLower e.title) || strIn (pyLower e.title) jt) = true
                      then max b 80 else b)) := by
          simp only [titleLoop]
          rw [if_neg hEmpty, if_neg hExact]
        set jacV := ((((pySplitWs jt).toFinset ∩ (pySplitWs (pyLower e.title)).toFinset).card : ℚ) /
          (((pySplitWs jt).toFinset ∪ (pySplitWs (pyLower e.title)).toFinset).card : ℚ)) * 100 with hjac
        have hjac0 : 0 ≤ jacV := jaccard_nonneg _ _
        have hb2 : (if 0 < (pySplitWs jt).toFinset.card ∧
              0 < (pySplitWs (pyLower e.title)).toFinset.card then
            max (if (strIn jt (pyLower e.title) || strIn (pyLower e.title) jt) = true
                  then max b 80 else b) jacV
          else (if (strIn jt (pyLower e.title) || strIn (pyLower e.title) jt) = true
                  then max b 80 else b)) = max b (roleCandidate jt e) := by
          rw [hcand]
          by_cases hW : 0 < (pySplitWs jt).toFinset.card ∧
              0 < (pySplitWs (pyLower e.title)).toFinset.card
          · rw [if_pos hW, if_pos hW]
            by_cases hC : (strIn jt (pyLower e.title) || strIn (pyLower e.title) jt) = true
            · rw [if_pos hC, if_pos hC, max_assoc]
            · rw [if_neg hC, if_neg hC, max_eq_right hjac0]
          · rw [if_neg hW, if_neg hW]
            by_cases hC : (strIn jt (pyLower e.title) || strIn (pyLower e.title) jt) = true
            · rw [if_pos hC, if_pos hC, max_eq_left (by norm_num : (0:ℚ) ≤ 80)]
            · rw [if_neg hC, if_neg hC, max_eq_left (le_refl 0), max_eq_left hb0]
        rw [hlhs, hb2, ih (max b (roleCandidate jt e))
          (le_trans hb0 (le_max_left b _)) (max_le hb1 hcand1), max_assoc]

theorem titleMatch_bounds (we : List WorkExp) (jt : String) :
    0 ≤ titleMatch we jt ∧ titleMatch we jt ≤ 100 := by
  unfold titleMatch
  split
  · norm_num
  · rw [titleLoop_eq (pyLower jt) we 0 (le_refl 0) (by norm_num),
      max_eq_right (foldr_max_nonneg _)]
    refine ⟨foldr_max_nonneg _, foldr_max_le _ _ (by norm_num) fun x hx => ?_⟩
    rcases List.mem_map.mp hx with ⟨e1, _, h1⟩
    rw [← h1]
    exact roleCandidate_le_100 _ e1

/-! ## Location, keyword, experience, rounding helpers -/

theorem locationMatch_cases (pl rp jl : String) (ir ihy : Bool) :
    locationMatch pl rp jl ir ihy = 100 ∨ locationMatch pl rp jl ir ihy = 80 ∨
      locationMatch pl rp jl ir ihy = 70 ∨ locationMatch pl rp jl ir ihy = 50 ∨
      locationMatch pl rp jl ir ihy = 30 := by
  unfold locationMatch
  dsimp only
  repeat' split
  all_goals norm_num

theorem locationMatch_bounds (pl rp jl : String) (ir ihy : Bool) :
    0 ≤ locationMatch pl rp jl ir ihy ∧ locationMatch pl rp jl ir ihy ≤ 100 := by
  rcases locationMatch_cases pl rp jl ir ihy with h | h | h | h | h <;>
    rw [h] <;> norm_num

theorem setRatio_bounds (r A : Finset String) (h : A.card ≠ 0) :
    0 ≤ (((r ∩ A).card : ℚ) / (A.card : ℚ)) * 100 ∧
      (((r ∩ A).card : ℚ) / (A.card : ℚ)) * 100 ≤ 100 := by
  have hpos : (0:ℚ) < (A.card : ℚ) := by exact_mod_cast Nat.pos_of_ne_zero h
  have hle : ((r ∩ A).card : ℚ) ≤ (A.card : ℚ) := by
    exact_mod_cast Finset.card_le_card Finset.inter_subset_right
  constructor
  · positivity
  · have h1 : ((r ∩ A).card : ℚ) / (A.card : ℚ) ≤ 1 := by
      rw [div_le_one hpos]
      exact hle
    nlinarith

theorem keywordMatch_bounds (rkw jkw : List String) (desc : String) :
    0 ≤ keywordMatch rkw jkw desc ∧ keywordMatch rkw jkw desc ≤ 100 := by
  unfold keywordMatch
  dsimp only
  split
  · norm_num
  · split <;> split
    · norm_num
    · next h => exact setRatio_bounds _ _ h
    · norm_num
    · next h => exact setRatio_bounds _ _ h

theorem skillsMatch_score_bounds (rs req nice : List String) :
    0 ≤ (skillsMatch rs req nice).1 ∧ (skillsMatch rs req nice).1 ≤ 100 := by
  cases hg : (req.isEmpty && nice.isEmpty)
  · rw [skillsMatch_score rs req nice hg]
    have hpos := skillsMatch_maxScore_pos req nice hg
    have haq : ((req.filter (matchesAny (rs.map pyLower))).length : ℚ) ≤
        (req.length : ℚ) := by
      exact_mod_cast List.length_filter_le _ _
    have hbq : ((nice.filter (matchesAny (rs.map pyLower))).length : ℚ) ≤
        (nice.length : ℚ) := by
      exact_mod_cast List.length_filter_le _ _
    have h0a : (0:ℚ) ≤ ((req.filter (matchesAny (rs.map pyLower))).length : ℚ) := by
      positivity
    have h0b : (0:ℚ) ≤ ((nice.filter (matchesAny (rs.map pyLower))).length : ℚ) := by
      positivity
    constructor
    · positivity
    · have h1 : (2 * ((req.filter (matchesAny (rs.map pyLower))).length : ℚ) +
          ((nice.filter (matchesAny (rs.map pyLower))).length : ℚ)) /
          (2 * (req.length : ℚ) + (nice.length : ℚ)) ≤ 1 := by
        rw [div_le_one hpos]
        linarith
      nlinarith
  · unfold skillsMatch
    rw [hg]
    norm_num

theorem entryMonths_nonneg (y : Int) (e : WorkExp) : 0 ≤ entryMonths y e := by
  unfold entryMonths
  repeat' split
  all_goals first
    | exact le_refl 0
    | exact le_max_left 0 _

theorem totalYears_nonneg (y : Int) (we : List WorkExp) : 0 ≤ totalYears y we := by
  unfold totalYears
  apply div_nonneg _ (by norm_num)
  have h : (0:ℤ) ≤ (we.map (entryMonths y)).sum := by
    apply List.sum_nonneg
    intro x hx
    rcases List.mem_map.mp hx with ⟨e, _, h1⟩
    rw [← h1]
    exact entryMonths_nonneg y e
  exact_mod_cast h

theorem experienceMatch_bounds (y : Int) (we : List WorkExp) (lvl : String) :
    0 ≤ experienceMatch y we lvl ∧ experienceMatch y we lvl ≤ 100 := by
  unfold experienceMatch
  dsimp only
  split
  · norm_num
  · have hty := totalYears_nonneg y we
    split
    · norm_num
    · split
      · split <;> norm_num
      · constructor
        · apply le_min (by norm_num)
          apply mul_nonneg _ (by norm_num)
          split
          · next hmm => exact div_nonneg hty (le_of_lt hmm)
          · norm_num
        · exact min_le_left _ _

theorem roundHalfEven_nonneg (q : ℚ) (h : 0 ≤ q) : 0 ≤ roundHalfEven q := by
  have h0 : 0 ≤ ⌊q⌋ := Int.floor_nonneg.mpr h
  unfold roundHalfEven
  dsimp only
  split
  · exact h0
  · split
    · omega
    · split <;> omega

theorem roundHalfEven_le_of_le (q : ℚ) (n : ℤ) (h : q ≤ (n:ℚ)) :
    roundHalfEven q ≤ n := by
  have hfl : ⌊q⌋ ≤ n := by
    have h1 := Int.floor_le_floor h
    rwa [Int.floor_intCast] at h1
  unfold roundHalfEven
  dsimp only
  split
  · exact hfl
  · next hlt =>
    have hge : (1:ℚ)/2 ≤ q - (⌊q⌋:ℚ) := not_lt.mp hlt
    have h2 : (⌊q⌋:ℚ) + 1/2 ≤ (n:ℚ) := by linarith
    have h3 : (⌊q⌋:ℚ) < (n:ℚ) := by linarith
    have h4 : ⌊q⌋ < n := by exact_mod_cast h3
    split
    · omega
    · split <;> omega

theorem roundTenths_nonneg (q : ℚ) (h : 0 ≤ q) : 0 ≤ roundTenths q := by
  unfold roundTenths
  apply div_nonneg _ (by norm_num)
  exact_mod_cast roundHalfEven_nonneg (q * 10) (by positivity)

theorem roundTenths_le_100 (q : ℚ) (h : q ≤ 100) : roundTenths q ≤ 100 := by
  have h1 : q * 10 ≤ ((1000:ℤ):ℚ) := by push_cast; linarith
  have h2 : roundHalfEven (q * 10) ≤ 1000 := roundHalfEven_le_of_le _ _ h1
  have h3 : ((roundHalfEven (q * 10) : ℤ) : ℚ) ≤ 1000 := by exact_mod_cast h2
  unfold roundTenths
  rw [div_le_iff (by norm_num)]
  linarith

/-! ## Claims C8, C10, C2, C6, C1 -/

/-- C8 counterexample: for work experience `[{title: "engineer engineer"}]`
and job title `"engineer"` the code returns 100 — containment gives the
role candidate 80 but the word-set Jaccard overlap (1.0, also evaluated) is
scaled to 100 — while the claim's `else`-chain reading predicts 80. -/
theorem title_containment_not_exclusive :
    titleMatch [{ title := "engineer engineer" }] "engineer" = 100 ∧
      titleMatchClaimed [{ title := "engineer engineer" }] "engineer" = 80 ∧
      titleMatch [{ title := "engineer engineer" }] "engineer" ≠
        titleMatchClaimed [{ title := "engineer engineer" }] "engineer" := by
  with_unfolding_all decide

/-- C8 amended: the title sub-score is 50 for an empty job title or empty
work history; otherwise it is the maximum over roles (floor 0) of per-role
candidates — 0 for an empty role title, 100 for an exact lower-cased match,
else the larger of 80-when-containment-holds and the word-set Jaccard
overlap scaled to 0-100 (both are evaluated, not an elif chain). -/
theorem title_match_amended (we : List WorkExp) (jt : String) :
    titleMatch we jt = titleMatchSpec we jt := by
  unfold titleMatch titleMatchSpec
  split
  · rfl
  · rw [titleLoop_eq (pyLower jt) we 0 (le_refl 0) (by norm_num),
      max_eq_right (foldr_max_nonneg _)]

theorem roundTenths_int (n : ℤ) : roundTenths ((n:ℚ)) = (n:ℚ) := by
  unfold roundTenths roundHalfEven
  dsimp only
  have h1 : ((n:ℚ) * 10) = (((10 * n : ℤ)) : ℚ) := by push_cast; ring
  rw [h1, Int.floor_intCast, sub_self, if_pos (by norm_num : (0:ℚ) < 1/2)]
  push_cast
  ring

/-- C10: the location sub-score always equals one of 100, 80, 70, 50 or 30
— in particular it is never 0 and never strictly between 80 and 100 — and
the `location_match` field of every `MatchResult` lies in the same
five-value set. -/
theorem location_five_values :
    (∀ (pl rp jl : String) (ir ihy : Bool),
      locationMatch pl rp jl ir ihy = 100 ∨ locationMatch pl rp jl ir ihy = 80 ∨
        locationMatch pl rp jl ir ihy = 70 ∨ locationMatch pl rp jl ir ihy = 50 ∨
        locationMatch pl rp jl ir ihy = 30) ∧
    ∀ (y : Int) (r : Resume) (j : Job),
      (calculateMatch y r j).location_match = 100 ∨
        (calculateMatch y r j).location_match = 80 ∨
        (calculateMatch y r j).location_match = 70 ∨
        (calculateMatch y r j).location_match = 50 ∨
        (calculateMatch y r j).location_match = 30 := by
  refine ⟨locationMatch_cases, fun y r j => ?_⟩
  have r100 : roundTenths (100:ℚ) = 100 := by exact_mod_cast roundTenths_int 100
  have r80 : roundTenths (80:ℚ) = 80 := by exact_mod_cast roundTenths_int 80
  have r70 : roundTenths (70:ℚ) = 70 := by exact_mod_cast roundTenths_int 70
  have r50 : roundTenths (50:ℚ) = 50 := by exact_mod_cast roundTenths_int 50
  have r30 : roundTenths (30:ℚ) = 30 := by exact_mod_cast roundTenths_int 30
  have hproj : (calculateMatch y r j).location_match =
      roundTenths (locationMatch r.preferred_location r.remote_preference
        j.location j.is_remote j.is_hybrid) := rfl
  rw [hproj]
  rcases locationMatch_cases r.preferred_location r.remote_preference j.location
      j.is_remote j.is_hybrid with h | h | h | h | h <;> rw [h]
  · rw [r100]; tauto
  · rw [r80]; tauto
  · rw [r70]; tauto
  · rw [r50]; tauto
  · rw [r30]; tauto

/-- C2: for every input and clock year, the returned `score`,
`experience_match` and `location_match` all lie within [0, 100]. -/
theorem match_result_bounds (y : Int) (r : Resume) (j : Job) :
    (0 ≤ (calculateMatch y r j).score ∧ (calculateMatch y r j).score ≤ 100) ∧
    (0 ≤ (calculateMatch y r j).experience_match ∧
      (calculateMatch y r j).experience_match ≤ 100) ∧
    (0 ≤ (calculateMatch y r j).location_match ∧
      (calculateMatch y r j).location_match ≤ 100) := by
  obtain ⟨hs0, hs1⟩ :=
    skillsMatch_score_bounds r.skills j.required_skills j.nice_to_have_skills
  obtain ⟨he0, he1⟩ := experienceMatch_bounds y r.work_experience j.experience_level
  obtain ⟨hl0, hl1⟩ := locationMatch_bounds r.preferred_location r.remote_preference
    j.location j.is_remote j.is_hybrid
  obtain ⟨hk0, hk1⟩ := keywordMatch_bounds r.keywords j.keywords j.description
  obtain ⟨ht0, ht1⟩ := titleMatch_bounds r.work_experience j.title
  have hproj1 : (calculateMatch y r j).experience_match =
      roundTenths (experienceMatch y r.work_experience j.experience_level) := rfl
  have hproj2 : (calculateMatch y r j).location_match =
      roundTenths (locationMatch r.preferred_location r.remote_preference
        j.location j.is_remote j.is_hybrid) := rfl
  have hproj0 : (calculateMatch y r j).score =
      roundTenths
        (if ((skillsMatch r.skills j.required_skills j.nice_to_have_skills).2.1.length : ℚ) ≥
              (j.required_skills.length : ℚ) * 0.8 ∧
            experienceMatch y r.work_experience j.experience_level ≥ 80 then
          min 100
            (((skillsMatch r.skills j.required_skills j.nice_to_have_skills).1 * 0.40 +
              experienceMatch y r.work_experience j.experience_level * 0.20 +
              locationMatch r.preferred_location r.remote_preference j.location
                j.is_remote j.is_hybrid * 0.15 +
              keywordMatch r.keywords j.keywords j.description * 0.15 +
              titleMatch r.work_experience j.title * 0.10) * 1.1)
        else
          (skillsMatch r.skills j.required_skills j.nice_to_have_skills).1 * 0.40 +
            experienceMatch y r.work_experience j.experience_level * 0.20 +
            locationMatch r.preferred_location r.remote_preference j.location
              j.is_remote j.is_hybrid * 0.15 +
            keywordMatch r.keywords j.keywords j.description * 0.15 +
            titleMatch r.work_experience j.title * 0.10) := rfl
  have htotal0 : 0 ≤ (skillsMatch r.skills j.required_skills j.nice_to_have_skills).1 * 0.40 +
      experienceMatch y r.work_experience j.experience_level * 0.20 +
      locationMatch r.preferred_location r.remote_preference j.location
        j.is_remote j.is_hybrid * 0.15 +
      keywordMatch r.keywords j.keywords j.description * 0.15 +
      titleMatch r.work_experience j.title * 0.10 := by linarith
  have htotal1 : (skillsMatch r.skills j.required_skills j.nice_to_have_skills).1 * 0.40 +
      experienceMatch y r.work_experience j.experience_level * 0.20 +
      locationMatch r.preferred_location r.remote_preference j.location
        j.is_remote j.is_hybrid * 0.15 +
      keywordMatch r.keywords j.keywords j.description * 0.15 +
      titleMatch r.work_experience j.title * 0.10 ≤ 100 := by linarith
  refine ⟨?_, ⟨by rw [hproj1]; exact roundTenths_nonneg _ he0,
      by rw [hproj1]; exact roundTenths_le_100 _ he1⟩,
    by rw [hproj2]; exact roundTenths_nonneg _ hl0,
      by rw [hproj2]; exact roundTenths_le_100 _ hl1⟩
  rw [hproj0]
  split
  · constructor
    · exact roundTenths_nonneg _ (le_min (by norm_num) (by nlinarith))
    · exact roundTenths_le_100 _ (min_le_left _ _)
  · exact ⟨roundTenths_nonneg _ htotal0, roundTenths_le_100 _ htotal1⟩

/-- C6: whenever the number of matched skills reaches 0.8 times the number
of required skills and the experience sub-score is at least 80, the
weighted total is multiplied by 1.1 and capped at 100 — the rounded score
then never exceeds 100 — and the reason "Highly qualified candidate" is
recorded; with an empty required-skill list the condition holds whenever
the experience sub-score is at least 80, regardless of skills. -/
theorem qualification_boost (y : Int) (r : Resume) (j : Job) :
    ((((skillsMatch r.skills j.required_skills j.nice_to_have_skills).2.1.length : ℚ) ≥
          (j.required_skills.length : ℚ) * 0.8 ∧
        experienceMatch y r.work_experience j.experience_level ≥ 80) →
      (calculateMatch y r j).score =
        roundTenths (min 100
          (((skillsMatch r.skills j.required_skills j.nice_to_have_skills).1 * 0.40 +
            experienceMatch y r.work_experience j.experience_level * 0.20 +
            locationMatch r.preferred_location r.remote_preference j.location
              j.is_remote j.is_hybrid * 0.15 +
            keywordMatch r.keywords j.keywords j.description * 0.15 +
            titleMatch r.work_experience j.title * 0.10) * 1.1)) ∧
        (calculateMatch y r j).score ≤ 100 ∧
        "Highly qualified candidate" ∈ (calculateMatch y r j).reasons) ∧
    (j.required_skills = [] →
      experienceMatch y r.work_experience j.experience_level ≥ 80 →
      (((skillsMatch r.skills j.required_skills j.nice_to_have_skills).2.1.length : ℚ) ≥
          (j.required_skills.length : ℚ) * 0.8 ∧
        experienceMatch y r.work_experience j.experience_level ≥ 80)) := by
  constructor
  · intro hcond
    obtain ⟨hs0, hs1⟩ :=
      skillsMatch_score_bounds r.skills j.required_skills j.nice_to_have_skills
    obtain ⟨he0, he1⟩ := experienceMatch_bounds y r.work_experience j.experience_level
    obtain ⟨hl0, hl1⟩ := locationMatch_bounds r.preferred_location r.remote_preference
      j.location j.is_remote j.is_hybrid
    obtain ⟨hk0, hk1⟩ := keywordMatch_bounds r.keywords j.keywords j.description
    obtain ⟨ht0, ht1⟩ := titleMatch_bounds r.work_experience j.title
    have hproj0 : (calculateMatch y r j).score =
        roundTenths
          (if ((skillsMatch r.skills j.required_skills j.nice_to_have_skills).2.1.length : ℚ) ≥
                (j.required_skills.length : ℚ) * 0.8 ∧
              experienceMatch y r.work_experience j.experience_level ≥ 80 then
            min 100
              (((skillsMatch r.skills j.required_skills j.nice_to_have_skills).1 * 0.40 +
                experienceMatch y r.work_experience j.experience_level * 0.20 +
                locationMatch r.preferred_location r.remote_preference j.location
                  j.is_remote j.is_hybrid * 0.15 +
                keywordMatch r.keywords j.keywords j.description * 0.15 +
                titleMatch r.work_experience j.title * 0.10) * 1.1)
          else
            (skillsMatch r.skills j.required_skills j.nice_to_have_skills).1 * 0.40 +
              experienceMatch y r.work_experience j.experience_level * 0.20 +
              locationMatch r.preferred_location r.remote_preference j.location
                j.is_remote j.is_hybrid * 0.15 +
              keywordMatch r.keywords j.keywords j.description * 0.15 +
              titleMatch r.work_experience j.title * 0.10) := rfl
    refine ⟨by rw [hproj0, if_pos hcond], ?_, ?_⟩
    · rw [hproj0, if_pos hcond]
      exact roundTenths_le_100 _ (min_le_left _ _)
    · show "Highly qualified candidate" ∈ (calculateMatch y r j).reasons
      unfold calculateMatch
      dsimp only
      rw [if_pos hcond]
      simp
  · intro hreq hexp
    refine ⟨?_, hexp⟩
    rw [hreq]
    simp only [List.length_nil, Nat.cast_zero, zero_mul]
    positivity

/-- Witness for `qualification_boost`: a fully qualified concrete candidate
(matched 1 ≥ 0.8 · 1 required skill, experience sub-score 100 ≥ 80). -/
theorem qualification_boost_witness :
    (calculateMatch 2025 { skills := ["python"] } { required_skills := ["python"] }).score =
      roundTenths (min 100
        (((skillsMatch ["python"] ["python"] []).1 * 0.40 +
          experienceMatch 2025 [] "" * 0.20 +
          locationMatch "" "any" "" false false * 0.15 +
          keywordMatch [] [] "" * 0.15 +
          titleMatch [] "" * 0.10) * 1.1)) ∧
      (calculateMatch 2025 { skills := ["python"] } { required_skills := ["python"] }).score ≤ 100 ∧
      "Highly qualified candidate" ∈
        (calculateMatch 2025 { skills := ["python"] } { required_skills := ["python"] }).reasons :=
  (qualification_boost 2025 { skills := ["python"] } { required_skills := ["python"] }).1
    (by with_unfolding_all decide)

theorem entryMonths_clock_free (y1 y2 : Int) (e : WorkExp)
    (hc : e.is_current = false) (hemp : e.end_date.isEmpty = false) :
    entryMonths y1 e = entryMonths y2 e := by
  simp [entryMonths, endYearParse, hc, hemp]

/-- C1 counterexample: `calculate_match` reads `datetime.now()` — with a
current (no end date) work-experience entry and a required experience
level, the same resume and job yield different results at clock years 2015
and 2025, so the result is not a function of the two inputs alone. -/
theorem calculate_match_clock_dependent :
    calculateMatch 2015
        { work_experience := [{ start_date := "2015", is_current := true }] }
        { experience_level := "senior" } ≠
      calculateMatch 2025
        { work_experience := [{ start_date := "2015", is_current := true }] }
        { experience_level := "senior" } := by
  with_unfolding_all decide

/-- C1 amended: `calculate_match` is a deterministic pure function of the
resume, the job and the current clock year; when every work-experience
entry is non-current and has a nonempty end date the clock year is
irrelevant, so repeated calls return identical results. -/
theorem calculate_match_deterministic (y1 y2 : Int) (r : Resume) (j : Job)
    (h : ∀ e ∈ r.work_experience, e.is_current = false ∧ e.end_date.isEmpty = false) :
    calculateMatch y1 r j = calculateMatch y2 r j := by
  have hmap : r.work_experience.map (entryMonths y1) =
      r.work_experience.map (entryMonths y2) :=
    List.map_congr_left fun e he => entryMonths_clock_free y1 y2 e (h e he).1 (h e he).2
  have hty : totalYears y1 r.work_experience = totalYears y2 r.work_experience := by
    unfold totalYears
    rw [hmap]
  have hexp : experienceMatch y1 r.work_experience j.experience_level =
      experienceMatch y2 r.work_experience j.experience_level := by
    unfold experienceMatch
    rw [hty]
  unfold calculateMatch
  rw [hexp]

/-- Witness for `calculate_match_deterministic`: a resume whose single
entry is closed (non-current, end date 2020) gives the same result at
clock years 2015 and 2025. -/
theorem calculate_match_deterministic_witness :
    calculateMatch 2015
        { work_experience := [{ start_date := "2015", end_date := "2020" }] }
        { experience_level := "senior" } =
      calculateMatch 2025
        { work_experience := [{ start_date := "2015", end_date := "2020" }] }
        { experience_level := "senior" } :=
  calculate_match_deterministic 2015 2025
    { work_experience := [{ start_date := "2015", end_date := "2020" }] }
    { experience_level := "senior" }
    (by decide)

/-! ## Python-level field access (claim C9)

`calculate_match` reads its inputs through `dict.get(key, default)`.  A key
can be absent (the default is used), present with `None`, or present with a
real value.  Top-level string fields present as `None` are only ever tested
for truthiness or compared to nonempty literals, where `None` behaves
exactly like `""`; list-valued fields present as `None` raise `TypeError`
as soon as the code iterates them or takes their length.  Work-experience
entries are themselves dicts: their date and `is_current` keys present as
`None` are falsy exactly like the defaults in the date parsing, but an
entry `title` present as `None` raises `AttributeError` at
`job.get('title', '').lower()` in the title match. -/

/-- A value stored under a key of a Python dict. -/
inductive PyField (α : Type) where
  | absent : PyField α
  | pynone : PyField α
  | val : α → PyField α
deriving DecidableEq

/-- `d.get(key, default)`; the `Option`'s `none` is Python `None`. -/
def PyField.get {α : Type} : PyField α → α → Option α
  | .absent, d => some d
  | .pynone, _ => none
  | .val a, _ => some a

/-- Truthiness of a Python list-or-`None` value. -/
def truthyList {α : Type} (o : Option (List α)) : Bool :=
  match o with
  | none => false
  | some l => !l.isEmpty

/-- A Python string-or-`None` collapsed to a string; this is only applied
in positions that test truthiness or compare against nonempty literals,
where `None` behaves exactly like `""`. -/
def strOf (o : Option String) : String := o.getD ""

/-- Iterating over, or taking `len` of, Python `None` raises `TypeError`. -/
def expectList {α : Type} (o : Option (List α)) : Except String (List α) :=
  match o with
  | none => Except.error "TypeError"
  | some l => Except.ok l

/-- One work-experience entry as a Python dict. -/
structure PyWorkExp where
  start_date : PyField String := .absent
  end_date : PyField String := .absent
  is_current : PyField Bool := .absent
  title : PyField String := .absent
deriving DecidableEq

/-- `job.get('title', '').lower()` on an entry: a `None` title raises
`AttributeError`, which no `except` in `calculate_match` catches (the date
loop only catches `ValueError`/`IndexError`). -/
def entryTitle (e : PyWorkExp) : Except String String :=
  match e.title.get "" with
  | none => Except.error "AttributeError"
  | some t => Except.ok t

/-- The plain `WorkExp` an entry dict denotes: `None` dates and
`is_current` are falsy exactly like the defaults in
`_calculate_total_years_experience` (`if start`, `if is_current or not
end`), and when the title is not `None` the collapse is exact for the
title match too. -/
def resolveEntry (e : PyWorkExp) : WorkExp :=
  { start_date := strOf (e.start_date.get "")
    end_date := strOf (e.end_date.get "")
    is_current := (e.is_current.get false).getD false
    title := strOf (e.title.get "") }

/-- The resume dict as `calculate_match` receives it. -/
structure PyResume where
  skills : PyField (List String) := .absent
  work_experience : PyField (List PyWorkExp) := .absent
  preferred_location : PyField String := .absent
  remote_preference : PyField String := .absent
  keywords : PyField (List String) := .absent
deriving DecidableEq

/-- The job dict as `calculate_match` receives it. -/
structure PyJob where
  required_skills : PyField (List String) := .absent
  nice_to_have_skills : PyField (List String) := .absent
  experience_level : PyField String := .absent
  location : PyField String := .absent
  is_remote : PyField Bool := .absent
  is_hybrid : PyField Bool := .absent
  keywords : PyField (List String) := .absent
  description : PyField String := .absent
  title : PyField String := .absent
deriving DecidableEq

/-- `_calculate_skills_match` on dict-level inputs: the `if not ... and not
...:` guard treats `None` like an empty list; otherwise `None` lists raise
`TypeError` in source order (resume list comprehension, then the required
loop, then the nice-to-have loop). -/
def skillsMatchPy (rs req nice : Option (List String)) :
    Except String (ℚ × List String × List String) :=
  if !truthyList req && !truthyList nice then Except.ok (100, [], [])
  else do
    let rsL ← expectList rs
    let reqL ← expectList req
    let niceL ← expectList nice
    Except.ok (skillsMatch rsL reqL niceL)

/-- `_calculate_experience_match` on dict-level inputs: a falsy level (also
`None`) returns 100 before `work_experience` is ever touched; entry fields
never raise here, so entries are resolved before the shared date loop. -/
def experienceMatchPy (nowYear : Int) (we : Option (List PyWorkExp))
    (level : Option String) : Except String ℚ :=
  if (strOf level).isEmpty then Except.ok 100
  else do
    let weL ← expectList we
    Except.ok (experienceMatch nowYear (weL.map resolveEntry) (strOf level))

/-- `_calculate_keyword_match` on dict-level inputs: resume keywords are
iterated first, then the job keywords. -/
def keywordMatchPy (rkw jkw : Option (List String)) (desc : String) :
    Except String ℚ :=
  if !truthyList jkw && desc.isEmpty then Except.ok 100
  else do
    let rkwL ← expectList rkw
    let jkwL ← expectList jkw
    Except.ok (keywordMatch rkwL jkwL desc)

/-- The `for job in work_experience` loop of `_calculate_title_match` on
dict-level entries: each iteration first evaluates
`job.get('title', '').lower()`, so an entry whose title is `None` raises
`AttributeError` when the loop reaches it (an exact match on an earlier
entry has already returned 100). -/
def titleLoopPy (jobTitleLower : String) : List PyWorkExp → ℚ → Except String ℚ
  | [], best => Except.ok best
  | e :: rest, best =>
    match entryTitle e with
    | Except.error msg => Except.error msg
    | Except.ok t =>
      let expTitle := pyLower t
      if expTitle.isEmpty then titleLoopPy jobTitleLower rest best
      else if jobTitleLower == expTitle then Except.ok 100
      else
        let b1 := if strIn jobTitleLower expTitle || strIn expTitle jobTitleLower then
                    max best 80 else best
        let jobWords := (pySplitWs jobTitleLower).toFinset
        let expWords := (pySplitWs expTitle).toFinset
        let b2 := if 0 < jobWords.card ∧ 0 < expWords.card then
                    max b1 ((((jobWords ∩ expWords).card : ℚ) /
                             ((jobWords ∪ expWords).card : ℚ)) * 100)
                  else b1
        titleLoopPy jobTitleLower rest b2

/-- `_calculate_title_match` on dict-level inputs: a `None` job title or
work experience is falsy and hits the neutral-50 guard without touching
the entries; otherwise the loop can raise on a `None` entry title. -/
def titleMatchPy (we : Option (List PyWorkExp)) (jt : Option String) :
    Except String ℚ :=
  if (strOf jt).isEmpty || !truthyList we then Except.ok 50
  else titleLoopPy (pyLower (strOf jt)) (we.getD []) 0

/-- `calculate_match` on Python dicts, propagating raised exceptions; the
boost condition re-reads `job.get('required_skills', [])` for its `len`,
so a `None` required-skills list raises there even when the skills guard
returned early. -/
def calculateMatchPy (nowYear : Int) (r : PyResume) (j : PyJob) :
    Except String MatchResult := do
  let sk ← skillsMatchPy (r.skills.get []) (j.required_skills.get [])
    (j.nice_to_have_skills.get [])
  let skillsScore := sk.1
  let matched := sk.2.1
  let missing := sk.2.2
  let experienceScore ← experienceMatchPy nowYear (r.work_experience.get [])
    (j.experience_level.get "")
  let locationScore := locationMatch (strOf (r.preferred_location.get ""))
    (strOf (r.remote_preference.get "any")) (strOf (j.location.get ""))
    ((j.is_remote.get false).getD false) ((j.is_hybrid.get false).getD false)
  let keywordScore ← keywordMatchPy (r.keywords.get []) (j.keywords.get [])
    (strOf (j.description.get ""))
  let titleScore ← titleMatchPy (r.work_experience.get []) (j.title.get "")
  let reqL ← expectList (j.required_skills.get [])
  let totalScore := skillsScore * 0.40 + experienceScore * 0.20 +
    locationScore * 0.15 + keywordScore * 0.15 + titleScore * 0.10
  let boost := (matched.length : ℚ) ≥ (reqL.length : ℚ) * 0.8 ∧
    experienceScore ≥ 80
  let reasons :=
    (if !matched.isEmpty then
      ["Matches " ++ toString matched.length ++ " required/nice-to-have skills"] else []) ++
    (if experienceScore ≥ 80 then ["Experience level matches job requirements"] else []) ++
    (if locationScore ≥ 80 then ["Location preferences align"] else []) ++
    (if keywordScore ≥ 70 then ["Strong keyword alignment with job description"] else []) ++
    (if titleScore ≥ 70 then ["Previous roles similar to this position"] else []) ++
    (if boost then ["Highly qualified candidate"] else [])
  let finalTotal := if boost then min 100 (totalScore * 1.1) else totalScore
  Except.ok
    { score := roundTenths finalTotal
      matching_skills := matched
      missing_skills := missing
      experience_match := roundTenths experienceScore
      location_match := roundTenths locationScore
      reasons := reasons }

/-- `true` unless the field holds Python `None`. -/
def notNone {α : Type} (f : PyField α) : Bool :=
  match f with
  | .pynone => false
  | _ => true

/-- The plain `Resume` a dict denotes when its list fields are not `None`. -/
def resolveResume (r : PyResume) : Resume :=
  { skills := (r.skills.get []).getD []
    work_experience := ((r.work_experience.get []).getD []).map resolveEntry
    preferred_location := strOf (r.preferred_location.get "")
    remote_preference := strOf (r.remote_preference.get "any")
    keywords := (r.keywords.get []).getD [] }

/-- The plain `Job` a dict denotes when its list fields are not `None`. -/
def resolveJob (j : PyJob) : Job :=
  { required_skills := (j.required_skills.get []).getD []
    nice_to_have_skills := (j.nice_to_have_skills.get []).getD []
    experience_level := strOf (j.experience_level.get "")
    location := strOf (j.location.get "")
    is_remote := (j.is_remote.get false).getD false
    is_hybrid := (j.is_hybrid.get false).getD false
    keywords := (j.keywords.get []).getD []
    description := strOf (j.description.get "")
    title := strOf (j.title.get "") }

theorem get_some {α : Type} (f : PyField α) (d : α) (h : notNone f = true) :
    ∃ a, f.get d = some a := by
  cases f
  · exact ⟨d, rfl⟩
  · simp [notNone] at h
  · exact ⟨_, rfl⟩

theorem skillsMatchPy_ok (a b c : List String) :
    skillsMatchPy (some a) (some b) (some c) = Except.ok (skillsMatch a b c) := by
  unfold skillsMatchPy
  split
  · next hg =>
    simp only [truthyList, Bool.and_eq_true, Bool.not_not] at hg
    unfold skillsMatch
    rw [hg.1, hg.2]
    rfl
  · rfl

theorem experienceMatchPy_ok (y : Int) (w : List PyWorkExp) (lvl : Option String) :
    experienceMatchPy y (some w) lvl =
      Except.ok (experienceMatch y (w.map resolveEntry) (strOf lvl)) := by
  unfold experienceMatchPy
  split
  · next hg =>
    unfold experienceMatch
    rw [if_pos hg]
  · rfl

theorem keywordMatchPy_ok (a b : List String) (desc : String) :
    keywordMatchPy (some a) (some b) desc = Except.ok (keywordMatch a b desc) := by
  unfold keywordMatchPy
  split
  · next hg =>
    simp only [truthyList, Bool.and_eq_true, Bool.not_not] at hg
    unfold keywordMatch
    rw [hg.1, hg.2]
    rfl
  · rfl

theorem titleLoopPy_ok (jt : String) (l : List PyWorkExp)
    (h : ∀ e ∈ l, notNone e.title = true) :
    ∀ b : ℚ, titleLoopPy jt l b = Except.ok (titleLoop jt (l.map resolveEntry) b) := by
  induction l with
  | nil => intro b; rfl
  | cons e rest ih =>
    intro b
    obtain ⟨t, ht⟩ := get_some e.title "" (h e (List.mem_cons_self e rest))
    have hrest : ∀ x ∈ rest, notNone x.title = true :=
      fun x hx => h x (List.mem_cons_of_mem e hx)
    have hres : (resolveEntry e).title = t := by
      unfold resolveEntry
      rw [ht]
      rfl
    simp only [titleLoopPy, entryTitle, ht, List.map_cons, titleLoop, hres]
    split
    · exact ih hrest b
    · split
      · rfl
      · exact ih hrest _

theorem titleMatchPy_ok (w : List PyWorkExp) (jt : Option String)
    (h : ∀ e ∈ w, notNone e.title = true) :
    titleMatchPy (some w) jt =
      Except.ok (titleMatch (w.map resolveEntry) (strOf jt)) := by
  have hmapE : (w.map resolveEntry).isEmpty = w.isEmpty := by cases w <;> rfl
  unfold titleMatchPy titleMatch
  split
  · next hg =>
    rcases Bool.or_eq_true_iff.mp hg with h1 | h1
    · rw [if_pos (Bool.or_eq_true_iff.mpr (Or.inl h1))]
    · simp only [truthyList, Bool.not_not] at h1
      rw [if_pos (Bool.or_eq_true_iff.mpr (Or.inr (by rw [hmapE]; exact h1)))]
  · next hg =>
    have hg2 : ((strOf jt).isEmpty || (w.map resolveEntry).isEmpty) = false := by
      rw [hmapE]
      cases hx : ((strOf jt).isEmpty || !truthyList (some w))
      · simp only [truthyList, Bool.or_eq_false_iff, Bool.not_not] at hx ⊢
        exact ⟨hx.1, hx.2⟩
      · exact absurd hx hg
    rw [hg2]
    simp only [Bool.false_eq_true, if_false]
    exact titleLoopPy_ok (pyLower (strOf jt)) w h 0

/-- C9 counterexample: a resume whose `skills` key is present with value
`None` raises `TypeError` against a job with a required skill, and a
work-experience entry whose `title` key is present with value `None`
raises `AttributeError` during the title match — neither `None` is treated
as an empty value. -/
theorem none_fields_raise :
    calculateMatchPy 2025 { skills := PyField.pynone }
        { required_skills := PyField.val ["python"] } =
      Except.error "TypeError" ∧
    calculateMatchPy 2025
        { work_experience := PyField.val [{ title := PyField.pynone }] }
        { title := PyField.val "engineer" } =
      Except.error "AttributeError" := by
  constructor
  · with_unfolding_all rfl
  · with_unfolding_all rfl

/-- C9 amended: `calculate_match` never raises on malformed date strings in
work experience (each entry with a nonempty unparseable start date
contributes zero years and is skipped), and absent optional fields are
defaulted (empty collections/strings, `'any'` for `remote_preference`,
`False` for booleans) — when no top-level list field is `None` and no
work-experience entry's title is `None`, it returns exactly the total
function of the defaulted inputs, `None` top-level string fields and entry
date fields behaving as `""`.  (A `None` list field raises `TypeError`,
and a `None` entry title raises `AttributeError`, instead.) -/
theorem data_quality_tolerance :
    (∀ (y : Int) (r : PyResume) (j : PyJob),
      notNone r.skills = true → notNone r.work_experience = true →
      notNone r.keywords = true → notNone j.required_skills = true →
      notNone j.nice_to_have_skills = true → notNone j.keywords = true →
      (∀ e ∈ (r.work_experience.get []).getD [], notNone e.title = true) →
      calculateMatchPy y r j =
        Except.ok (calculateMatch y (resolveResume r) (resolveJob j))) ∧
    (∀ (y : Int) (e : WorkExp) (rest : List WorkExp),
      pyInt (beforeDash e.start_date) = none → e.start_date.isEmpty = false →
      totalYears y (e :: rest) = totalYears y rest) := by
  constructor
  · intro y r j h1 h2 h3 h4 h5 h6 h7
    obtain ⟨a, ha⟩ := get_some r.skills [] h1
    obtain ⟨w, hw⟩ := get_some r.work_experience [] h2
    obtain ⟨k, hk⟩ := get_some r.keywords [] h3
    obtain ⟨b, hb⟩ := get_some j.required_skills [] h4
    obtain ⟨c, hc⟩ := get_some j.nice_to_have_skills [] h5
    obtain ⟨jk, hjk⟩ := get_some j.keywords [] h6
    rw [hw] at h7
    simp only [Option.getD_some] at h7
    unfold calculateMatchPy calculateMatch resolveResume resolveJob
    rw [ha, hw, hk, hb, hc, hjk, skillsMatchPy_ok, experienceMatchPy_ok,
      keywordMatchPy_ok, titleMatchPy_ok w (j.title.get "") h7]
    rfl
  · intro y e rest hbad hne
    have hzero : entryMonths y e = 0 := by
      unfold entryMonths startYearParse
      rw [hne, hbad]
      rfl
    unfold totalYears
    rw [List.map_cons, List.sum_cons, hzero, zero_add]

/-- Concrete resume dict for the `data_quality_tolerance` witness. -/
def witnessPyResume : PyResume :=
  { skills := PyField.val ["python"]
    work_experience := PyField.val [{ title := PyField.val "engineer" }] }

/-- Concrete job dict for the `data_quality_tolerance` witness. -/
def witnessPyJob : PyJob :=
  { required_skills := PyField.val ["python"] }

/-- Witness for `data_quality_tolerance`: both parts at concrete inputs —
a resume with a skill and one well-titled work entry against a job with a
required skill, and an entry with the unparseable start date `"unknown"`. -/
theorem data_quality_tolerance_witness :
    (calculateMatchPy 2025 witnessPyResume witnessPyJob =
      Except.ok (calculateMatch 2025 (resolveResume witnessPyResume)
        (resolveJob witnessPyJob))) ∧
    totalYears 2025 [{ start_date := "unknown" },
        { start_date := "2015", end_date := "2020" }] =
      totalYears 2025 [{ start_date := "2015", end_date := "2020" }] :=
  ⟨data_quality_tolerance.1 2025 witnessPyResume witnessPyJob
      (by decide) (by decide) (by decide) (by decide) (by decide) (by decide)
      (by decide),
    data_quality_tolerance.2 2025 { start_date := "unknown" }
      [{ start_date := "2015", end_date := "2020" }]
      (by with_unfolding_all decide) (by decide)⟩

end Matching
